import Mathlib

/-!
Shallow embedding of the core of the healthcare appointment backend
(Express/MySQL, `src/backend/src/routes/appointments.js` and the auth,
validation and middleware modules) in Lean 4.

Encoding conventions:
* clock times (`appointment_time`, window `start_time`/`end_time`) are
  minutes since midnight (`Nat`);
* calendar dates (`appointment_date`) are abstract day indices (`Nat`);
* each SQL table is a `List` of a structure mirroring the selected columns;
* a route handler is a pure function from the actor, the relevant tables and
  the request to `Except ApiError result`; a thrown error inside the source
  transaction rolls the transaction back, which the functional embedding
  renders as returning `.error e` and leaving the caller's state untouched.
-/

/-- `users.role` enum. -/
inductive Role where
  | patient
  | doctor
  | admin
deriving DecidableEq, Repr

/-- `appointments.status` enum (the six values accepted by
`updateAppointmentValidation`). -/
inductive AptStatus where
  | scheduled
  | confirmed
  | inProgress
  | completed
  | cancelled
  | noShow
deriving DecidableEq, Repr

/-- `appointments.type` enum. -/
inductive AptType where
  | inPerson
  | virtual
deriving DecidableEq, Repr

/-- `appointments.payment_status`; creation always inserts `pending`. -/
inductive PayStatus where
  | pending
  | paid
deriving DecidableEq, Repr

/-- Typed errors of `middleware/errorHandler.js`; `internal` is the generic
500 produced when a handler throws something that is not one of the custom
error classes. -/
inductive ApiError where
  | notFound
  | conflict
  | forbidden
  | unauthorized
  | validation
  | internal
deriving DecidableEq, Repr

/-- A row of the `users` table (columns the core routes read). -/
structure User where
  id : Nat
  email : String
  role : Role
  isActive : Bool
deriving DecidableEq, Repr

/-- A row of the `doctors` table. -/
structure Doctor where
  id : Nat
  userId : Nat
  specialization : String := ""
  licenseNumber : String := ""
  consultationFee : Nat := 0
  isAvailable : Bool
deriving DecidableEq, Repr

/-- A row of the `appointments` table. -/
structure Appointment where
  id : Nat
  patientId : Nat
  doctorId : Nat
  date : Nat
  time : Nat
  durationMinutes : Nat
  type : AptType
  status : AptStatus
  reasonForVisit : String := ""
  notes : String := ""
  consultationFee : Nat := 0
  paymentStatus : PayStatus := .pending
deriving DecidableEq, Repr

/-- A row of the `doctor_availability` table. -/
structure AvailWindow where
  doctorId : Nat
  dayOfWeek : String
  startTime : Nat
  endTime : Nat
  isActive : Bool
deriving DecidableEq, Repr

/-- A row of the `refresh_tokens` table.  `live` models the SQL predicate
`expires_at > NOW()` at the moment of the call. -/
structure TokenRecord where
  id : Nat
  userId : Nat
  tokenHash : Nat
  live : Bool
  isRevoked : Bool
deriving DecidableEq, Repr

/-! ## Scheduling Engine -/

/-- The doctor lookup of `POST /appointments`:
`WHERE d.id = ? AND d.is_available = TRUE AND u.is_active = TRUE`
(with `JOIN users u ON d.user_id = u.id`). -/
def findBookableDoctor (doctors : List Doctor) (users : List User)
    (doctorId : Nat) : Option Doctor :=
  doctors.find? fun d =>
    d.id == doctorId && d.isAvailable &&
      users.any fun u => u.id == d.userId && u.isActive

/-- The write-time conflict query of `POST /appointments` and
`PUT /appointments/:id`:
`WHERE doctor_id = ? AND appointment_date = ? AND appointment_time = ?
 AND status IN ('scheduled', 'confirmed')`, with the update variant adding
`AND id != ?` (`excludeId`). -/
def hasExactConflict (appointments : List Appointment)
    (doctorId date time : Nat) (excludeId : Option Nat) : Bool :=
  appointments.any fun a =>
    a.doctorId == doctorId && a.date == date && a.time == time &&
      (a.status == .scheduled || a.status == .confirmed) &&
      (match excludeId with
       | none => true
       | some i => !(a.id == i))

/-- The `isBooked` test inside the slot loop of
`GET /doctors/:id/availability/:date`:
`(currentTime >= slotStart && currentTime < slotEnd) ||
 (currentSlotEnd > slotStart && currentSlotEnd <= slotEnd)`
where `slotEnd = slotStart + duration` and `currentSlotEnd = currentTime + 30`.
`booked` pairs are `(appointment_time, duration_minutes)`. -/
def slotIsBooked (currentTime : Nat) (booked : List (Nat × Nat)) : Bool :=
  booked.any fun slot =>
    let slotStart := slot.1
    let slotEnd := slot.1 + slot.2
    let currentSlotEnd := currentTime + 30
    (decide (currentTime ≥ slotStart) && decide (currentTime < slotEnd)) ||
      (decide (currentSlotEnd > slotStart) && decide (currentSlotEnd ≤ slotEnd))

/-- The slot-generation `while (currentTime < endTime)` loop: emit the
current time when it is not booked, then advance by the fixed 30-minute
stride. -/
def generateSlots (currentTime endTime : Nat)
    (booked : List (Nat × Nat)) : List Nat :=
  if _h : currentTime < endTime then
    (if slotIsBooked currentTime booked then [] else [currentTime]) ++
      generateSlots (currentTime + 30) endTime booked
  else []
termination_by endTime - currentTime
decreasing_by omega

/-- The availability-window lookup of `GET /doctors/:id/availability/:date`
(the handler uses `availability[0]`, i.e. the first joined row):
`WHERE da.doctor_id = ? AND da.day_of_week = ? AND da.is_active = TRUE
 AND d.is_available = TRUE AND u.is_active = TRUE`. -/
def findDayWindow (windows : List AvailWindow) (doctors : List Doctor)
    (users : List User) (doctorId : Nat) (dayOfWeek : String) :
    Option AvailWindow :=
  windows.find? fun w =>
    w.doctorId == doctorId && w.dayOfWeek == dayOfWeek && w.isActive &&
      doctors.any fun d =>
        d.id == doctorId && d.isAvailable &&
          users.any fun u => u.id == d.userId && u.isActive

/-- The booked-slot query of the availability route:
`WHERE doctor_id = ? AND appointment_date = ?
 AND status IN ('scheduled', 'confirmed', 'in-progress')`. -/
def bookedSlotsFor (appointments : List Appointment)
    (doctorId date : Nat) : List (Nat × Nat) :=
  (appointments.filter fun a =>
      a.doctorId == doctorId && a.date == date &&
        (a.status == .scheduled || a.status == .confirmed ||
          a.status == .inProgress)).map
    fun a => (a.time, a.durationMinutes)

/-- `GET /doctors/:id/availability/:date`.  `dateIsPast` models the
`appointmentDate < today` comparison (past dates are rejected with a 400);
`dayOfWeek` is the day name computed from the date.  With no active window
for the day the route answers an empty slot list. -/
def availableSlots (windows : List AvailWindow) (doctors : List Doctor)
    (users : List User) (appointments : List Appointment)
    (doctorId : Nat) (date : Nat) (dayOfWeek : String)
    (dateIsPast : Bool) : Except ApiError (List Nat) :=
  if dateIsPast then .error .validation
  else
    match findDayWindow windows doctors users doctorId dayOfWeek with
    | none => .ok []
    | some w =>
        .ok (generateSlots w.startTime w.endTime
          (bookedSlotsFor appointments doctorId date))

/-! ## Appointment Lifecycle Controller -/

/-- Request body of `POST /appointments` (after `createAppointmentValidation`);
note the body carries no patient id. -/
structure CreateRequest where
  doctorId : Nat
  appointmentDate : Nat
  appointmentTime : Nat
  durationMinutes : Nat := 30
  type : AptType
  reasonForVisit : String := ""
deriving DecidableEq, Repr

/-- `POST /appointments`.  The route is guarded by
`authorizeRoles('patient')` (modelled by the leading role test, a 403 for
any other role); the handler verifies the doctor, runs the exact-match
conflict query, and inserts the row with `patient_id = req.user.id`,
`status = 'scheduled'`, `payment_status = 'pending'` and the fee copied from
the doctor row.  The opaque `virtual_meeting_url` random string is not
modelled. -/
def createAppointment (actor : User) (users : List User)
    (doctors : List Doctor) (appointments : List Appointment)
    (req : CreateRequest) (newId : Nat) :
    Except ApiError (Appointment × List Appointment) :=
  if !(actor.role == .patient) then .error .forbidden
  else
    match findBookableDoctor doctors users req.doctorId with
    | none => .error .notFound
    | some doctor =>
        if hasExactConflict appointments req.doctorId
            req.appointmentDate req.appointmentTime none then
          .error .conflict
        else
          let apt : Appointment :=
            { id := newId
              patientId := actor.id
              doctorId := req.doctorId
              date := req.appointmentDate
              time := req.appointmentTime
              durationMinutes := req.durationMinutes
              type := req.type
              status := .scheduled
              reasonForVisit := req.reasonForVisit
              consultationFee := doctor.consultationFee
              paymentStatus := .pending }
          .ok (apt, appointments ++ [apt])

/-- Request body of `PUT /appointments/:id`: the keys of `updates` that the
handler's `fieldMapping` recognizes, each optional. -/
structure UpdateRequest where
  appointmentDate : Option Nat := none
  appointmentTime : Option Nat := none
  durationMinutes : Option Nat := none
  type : Option AptType := none
  status : Option AptStatus := none
  reasonForVisit : Option String := none
  notes : Option String := none
deriving DecidableEq, Repr

/-- The patient field restriction:
`Object.keys(updates).some(key => !allowedFields.includes(key))` with
`allowedFields = ['appointmentDate', 'appointmentTime', 'reasonForVisit']`. -/
def hasDisallowedPatientField (u : UpdateRequest) : Bool :=
  u.durationMinutes.isSome || u.type.isSome || u.status.isSome ||
    u.notes.isSome

/-- Number of `fieldMapping` keys present in the body (the handler collects
`updateFields` from them). -/
def numUpdateFields (u : UpdateRequest) : Nat :=
  (if u.appointmentDate.isSome then 1 else 0) +
    (if u.appointmentTime.isSome then 1 else 0) +
    (if u.durationMinutes.isSome then 1 else 0) +
    (if u.type.isSome then 1 else 0) +
    (if u.status.isSome then 1 else 0) +
    (if u.reasonForVisit.isSome then 1 else 0) +
    (if u.notes.isSome then 1 else 0)

/-- The `UPDATE appointments SET ...` effect on one row: every present
field overwrites the stored column. -/
def applyUpdates (a : Appointment) (u : UpdateRequest) : Appointment :=
  { a with
    date := u.appointmentDate.getD a.date
    time := u.appointmentTime.getD a.time
    durationMinutes := u.durationMinutes.getD a.durationMinutes
    type := u.type.getD a.type
    status := u.status.getD a.status
    reasonForVisit := u.reasonForVisit.getD a.reasonForVisit
    notes := u.notes.getD a.notes }

/-- `PUT /appointments/:id`.  Mirrors the handler's order: fetch the
appointment joined with its doctor row (`d.user_id as doctor_user_id`),
check `canUpdate`, apply the patient-only restrictions, re-run the conflict
query (excluding this id) when date or time is in the body, then write.
The empty-body branch throws `ValidationError`, a class this module never
imports, so at runtime it surfaces as a 500 internal error — modelled as
`.error .internal`. -/
def updateAppointment (actor : User) (doctors : List Doctor)
    (appointments : List Appointment) (aptId : Nat) (u : UpdateRequest) :
    Except ApiError (List Appointment) :=
  match appointments.find? (fun a => a.id == aptId) with
  | none => .error .notFound
  | some apt =>
      match doctors.find? (fun d => d.id == apt.doctorId) with
      | none => .error .notFound
      | some doc =>
          let canUpdate := actor.role == .admin ||
            (actor.role == .patient && apt.patientId == actor.id) ||
            (actor.role == .doctor && doc.userId == actor.id)
          if !canUpdate then .error .forbidden
          else if actor.role == .patient && !(apt.status == .scheduled) then
            .error .forbidden
          else if actor.role == .patient && hasDisallowedPatientField u then
            .error .forbidden
          else if (u.appointmentDate.isSome || u.appointmentTime.isSome) &&
              hasExactConflict appointments apt.doctorId
                (u.appointmentDate.getD apt.date)
                (u.appointmentTime.getD apt.time) (some aptId) then
            .error .conflict
          else if numUpdateFields u == 0 then .error .internal
          else
            .ok (appointments.map fun a =>
              if a.id == aptId then applyUpdates a u else a)

/-- `DELETE /appointments/:id`: fetch, check `canCancel` (same rule as
update), then unconditionally set the status to `cancelled`. -/
def cancelAppointment (actor : User) (doctors : List Doctor)
    (appointments : List Appointment) (aptId : Nat) :
    Except ApiError (List Appointment) :=
  match appointments.find? (fun a => a.id == aptId) with
  | none => .error .notFound
  | some apt =>
      match doctors.find? (fun d => d.id == apt.doctorId) with
      | none => .error .notFound
      | some doc =>
          let canCancel := actor.role == .admin ||
            (actor.role == .patient && apt.patientId == actor.id) ||
            (actor.role == .doctor && doc.userId == actor.id)
          if !canCancel then .error .forbidden
          else
            .ok (appointments.map fun a =>
              if a.id == aptId then { a with status := .cancelled } else a)

/-! ## Availability Calendar -/

/-- One element of the `availability` array posted to
`PUT /doctors/availability`; `Option` models a missing (falsy) property. -/
structure WindowInput where
  dayOfWeek : Option String := none
  startTime : Option Nat := none
  endTime : Option Nat := none
  isActive : Bool := true
deriving DecidableEq, Repr

/-- `dayOfWeek.toLowerCase()`: lower-case every character.  (Written via
the character list, which is extensionally the same as `String.toLower`,
so that the kernel can evaluate it on literals.) -/
def lowerString (s : String) : String := ⟨s.data.map Char.toLower⟩

/-- The insert loop of `PUT /doctors/availability`: each slot must have
`dayOfWeek`, `startTime` and `endTime` present; the day is lower-cased on
insert.  There is no comparison between `startTime` and `endTime`.  The
missing-field branch throws `ValidationError`, a class the doctors router
never imports, so at runtime it surfaces as a 500 internal error —
modelled as `.error .internal`; any error aborts the whole transaction. -/
def insertWindows (doctorId : Nat) :
    List WindowInput → Except ApiError (List AvailWindow)
  | [] => .ok []
  | w :: rest =>
      match w.dayOfWeek, w.startTime, w.endTime with
      | some day, some s, some e =>
          match insertWindows doctorId rest with
          | .ok ws =>
              .ok ({ doctorId := doctorId, dayOfWeek := lowerString day,
                     startTime := s, endTime := e,
                     isActive := w.isActive } :: ws)
          | .error err => .error err
      | _, _, _ => .error .internal

/-- `PUT /doctors/availability` (guarded by `authorizeRoles('doctor')`):
inside one transaction, delete every window of the calling doctor and insert
the submitted ones; on any error the transaction rolls back, so the caller's
window table is unchanged (the `.error` branch of the embedding). -/
def setAvailability (actor : User) (doctors : List Doctor)
    (windows : List AvailWindow) (input : List WindowInput) :
    Except ApiError (List AvailWindow) :=
  if !(actor.role == .doctor) then .error .forbidden
  else
    match doctors.find? (fun d => d.userId == actor.id) with
    | none => .error .notFound
    | some doc =>
        match insertWindows doc.id input with
        | .error e => .error e
        | .ok newWs =>
            .ok ((windows.filter fun w => !(w.doctorId == doc.id)) ++ newWs)

/-! ## Auth Session Manager -/

/-- Outcome of `jwt.verify` on the access token in `authenticateToken`
(`middleware/auth.js`): the token is missing, malformed
(`JsonWebTokenError`), expired (`TokenExpiredError`), or valid and carrying
`userId`. -/
inductive TokenCheck where
  | missing
  | malformed
  | expired
  | valid (userId : Nat)
deriving DecidableEq, Repr

/-- Result of the `authenticateToken` middleware: either `req.user` is set,
or the request is answered with a 401 and the given `code`. -/
inductive AuthOutcome where
  | ok (u : User)
  | fail401 (code : String)
deriving DecidableEq, Repr

/-- `authenticateToken` (`middleware/auth.js`): after `jwt.verify`
succeeds, the middleware re-fetches the account with
`WHERE id = ? AND is_active = TRUE` and rejects with a 401 when no such
row exists. -/
def authenticateToken (users : List User) (tok : TokenCheck) : AuthOutcome :=
  match tok with
  | .missing => .fail401 "TOKEN_MISSING"
  | .malformed => .fail401 "INVALID_TOKEN"
  | .expired => .fail401 "TOKEN_EXPIRED"
  | .valid uid =>
      match users.find? (fun u => u.id == uid && u.isActive) with
      | none => .fail401 "INVALID_TOKEN"
      | some u => .ok u

/-- `PUT /users/:id/status` (admin only): refuses self-deactivation with a
400, 404 when no row is updated, otherwise writes `is_active`.  (The
follow-up revocation of the user's refresh tokens is not needed by the
claims and is not modelled.) -/
def setUserStatus (users : List User) (adminId userId : Nat)
    (isActive : Bool) : Except ApiError (List User) :=
  if userId == adminId && !isActive then .error .validation
  else if users.all (fun u => !(u.id == userId)) then .error .notFound
  else
    .ok (users.map fun u =>
      if u.id == userId then { u with isActive := isActive } else u)

/-- `POST /auth/refresh` (`routes/auth.js`).  `compare` stands for
`bcrypt.compare` between a presented plaintext token and a stored hash;
`tokenUserId` is the outcome of `jwt.verify` on the presented refresh token
(`none` when the signature or expiry check throws, answered with a 401 by
the error handler).  The handler selects the caller's live, non-revoked
records, scans them for the first hash match, revokes exactly that record,
and appends a record for the freshly issued refresh token (`newId`,
`newHash`); the new pair itself is opaque, so the result carries only the
new table. -/
def refreshTokens (compare : Nat → Nat → Bool) (rows : List TokenRecord)
    (tokenUserId : Option Nat) (token : Nat) (newId newHash : Nat) :
    Except ApiError (List TokenRecord) :=
  match tokenUserId with
  | none => .error .unauthorized
  | some uid =>
      let candidates := rows.filter fun r =>
        r.userId == uid && r.live && !r.isRevoked
      match candidates.find? (fun r => compare token r.tokenHash) with
      | none => .error .unauthorized
      | some valid =>
          .ok ((rows.map fun r =>
              if r.id == valid.id then { r with isRevoked := true } else r) ++
            [{ id := newId, userId := uid, tokenHash := newHash,
               live := true, isRevoked := false }])

/-! ## Registration -/

/-- Request body of `POST /auth/register` as it reaches
`registerValidation`; `role` is the raw string from the client. -/
structure RegisterRequest where
  email : String
  password : String := ""
  firstName : String := ""
  lastName : String := ""
  role : String
  specialization : Option String := none
  licenseNumber : Option String := none
  yearsOfExperience : Nat := 0
deriving DecidableEq, Repr

/-- The `registerValidation` rules over the fields the embedding carries:
`role` must be `isIn(['patient', 'doctor'])`, the password at least 8
characters, names 2–50 characters, and the doctor-only fields non-empty when
`role` equals `doctor`.  (The email-format and password character-class
regexes only reject further inputs and are not modelled.) -/
def registerValidationOk (req : RegisterRequest) : Bool :=
  (req.role == "patient" || req.role == "doctor") &&
    req.password.length ≥ 8 &&
    (req.firstName.length ≥ 2 && req.firstName.length ≤ 50) &&
    (req.lastName.length ≥ 2 && req.lastName.length ≤ 50) &&
    (!(req.role == "doctor") ||
      (req.specialization.isSome && req.licenseNumber.isSome))

/-- `POST /auth/register`: after validation, reject a duplicate email with
a 409, insert the user row, and for a doctor also check license uniqueness
and insert the doctor row — all in one transaction, so any error leaves
both tables unchanged.  (Token issuance after the commit is out of scope of
the registration claims.) -/
def registerUser (users : List User) (doctors : List Doctor)
    (req : RegisterRequest) (newUserId newDoctorId : Nat) :
    Except ApiError (List User × List Doctor) :=
  if !(registerValidationOk req) then .error .validation
  else if users.any (fun u => u.email == req.email) then .error .conflict
  else
    let newUser : User :=
      { id := newUserId, email := req.email,
        role := if req.role == "doctor" then .doctor else .patient,
        isActive := true }
    if req.role == "doctor" then
      match req.specialization, req.licenseNumber with
      | some spec, some lic =>
          if doctors.any (fun d => d.licenseNumber == lic) then
            .error .conflict
          else
            .ok (users ++ [newUser],
              doctors ++ [{ id := newDoctorId, userId := newUserId,
                            specialization := spec, licenseNumber := lic,
                            isAvailable := true }])
      | _, _ => .error .validation
    else .ok (users ++ [newUser], doctors)

/-- The refresh-token table after one successful redemption that matched
record `v`: `v` is revoked and a record for the new token is appended. -/
def afterRotation (rows : List TokenRecord) (v : TokenRecord)
    (uid newId newHash : Nat) : List TokenRecord :=
  (rows.map fun r =>
    if r.id == v.id then { r with isRevoked := true } else r) ++
    [{ id := newId, userId := uid, tokenHash := newHash,
       live := true, isRevoked := false }]

/-! ## Concrete fixtures used by the theorems below -/

/-- A doctor account. -/
def demoDoctorUser : User :=
  { id := 2, email := "doc@clinic.test", role := .doctor, isActive := true }

/-- A patient account. -/
def demoPatientUser : User :=
  { id := 3, email := "pat@clinic.test", role := .patient, isActive := true }

/-- A second, unrelated patient account. -/
def demoOtherPatient : User :=
  { id := 4, email := "other@clinic.test", role := .patient, isActive := true }

/-- An admin account. -/
def demoAdmin : User :=
  { id := 5, email := "admin@clinic.test", role := .admin, isActive := true }

/-- The doctor row owned by `demoDoctorUser`. -/
def demoDoctor : Doctor :=
  { id := 1, userId := 2, consultationFee := 100, isAvailable := true }

/-- A `09:00`–`17:00` availability window for `demoDoctor` (minutes:
540–1020). -/
def demoWindow : AvailWindow :=
  { doctorId := 1, dayOfWeek := "monday", startTime := 540, endTime := 1020,
    isActive := true }

/-- A scheduled appointment of `demoPatientUser` with `demoDoctor` at
`10:00` (600 minutes) for 30 minutes. -/
def demoApt : Appointment :=
  { id := 7, patientId := 3, doctorId := 1, date := 100, time := 600,
    durationMinutes := 30, type := .inPerson, status := .scheduled }

/-- A completed (terminal-status) appointment of `demoPatientUser`. -/
def demoCompletedApt : Appointment :=
  { id := 9, patientId := 3, doctorId := 1, date := 90, time := 660,
    durationMinutes := 30, type := .inPerson, status := .completed }

/-- The appointment row produced by the booking in the C9 witness. -/
def createdApt : Appointment :=
  { id := 12, patientId := 3, doctorId := 1, date := 100, time := 630,
    durationMinutes := 30, type := .inPerson, status := .scheduled,
    consultationFee := 100 }

/-! ## Claims -/

/-- C3: for a doctor whose availability window on the requested day is
09:00–17:00 (minutes 540–1020) and who has no booked appointments on the
requested non-past date, `availableSlots` returns exactly the 16 candidate
start times 09:00, 09:30, …, 16:30 (540, 570, …, 990 minutes), generated at
a fixed 30-minute stride from window start up to but not including window
end. -/
theorem availableSlots_full_window_no_bookings :
    availableSlots [demoWindow] [demoDoctor] [demoDoctorUser] [] 1 100
      "monday" false =
      .ok [540, 570, 600, 630, 660, 690, 720, 750, 780, 810, 840, 870, 900,
        930, 960, 990] := by
  simp [availableSlots, findDayWindow, bookedSlotsFor, generateSlots,
    slotIsBooked, demoWindow, demoDoctor, demoDoctorUser]

/-- C4 (counterexample): the claimed "excluded if and only if the half-open
intervals intersect" is false of the code.  A booked appointment at 10:05
(605 minutes) lasting 15 minutes occupies `[605, 620)`, which intersects the
candidate span `[600, 630)`, yet the `isBooked` test of the availability
route does not exclude the 10:00 candidate: 600 still appears in the
returned slots. -/
theorem slot_overlap_iff_counterexample :
    slotIsBooked 600 [(605, 15)] = false ∧
    (600 < 605 + 15 ∧ 605 < 600 + 30) ∧
    availableSlots [demoWindow] [demoDoctor] [demoDoctorUser]
      [{ id := 11, patientId := 3, doctorId := 1, date := 100, time := 605,
         durationMinutes := 15, type := .inPerson, status := .scheduled }]
      1 100 "monday" false =
      .ok [540, 570, 600, 630, 660, 690, 720, 750, 780, 810, 840, 870, 900,
        930, 960, 990] := by
  refine ⟨by decide, by decide, ?_⟩
  simp [availableSlots, findDayWindow, bookedSlotsFor, generateSlots,
    slotIsBooked, demoWindow, demoDoctor, demoDoctorUser]

/-- C4 (amended): a candidate start time is excluded from `availableSlots`
if and only if some booked `(time, duration)` span `[t, t + d)` intersects
the candidate span `[c, c + 30)` as half-open intervals AND the booked span
is not strictly contained in the candidate span (the code's two-disjunct
test misses exactly the strict-containment case `c < t ∧ t + d < c + 30`).
In particular, booking 10:00 for 30 minutes removes exactly the 10:00 slot
while 09:30 and 10:30 remain present. -/
theorem slot_exclusion_characterization :
    (∀ (c : Nat) (booked : List (Nat × Nat)),
      slotIsBooked c booked = true ↔
        ∃ p ∈ booked, (c < p.1 + p.2 ∧ p.1 < c + 30) ∧
          ¬(c < p.1 ∧ p.1 + p.2 < c + 30)) ∧
    availableSlots [demoWindow] [demoDoctor] [demoDoctorUser] [demoApt]
      1 100 "monday" false =
      .ok [540, 570, 630, 660, 690, 720, 750, 780, 810, 840, 870, 900,
        930, 960, 990] := by
  constructor
  · intro c booked
    simp only [slotIsBooked, List.any_eq_true, Bool.or_eq_true,
      Bool.and_eq_true, decide_eq_true_eq]
    constructor
    · rintro ⟨p, hp, h⟩
      exact ⟨p, hp, by omega⟩
    · rintro ⟨p, hp, h⟩
      exact ⟨p, hp, by omega⟩
  · simp [availableSlots, findDayWindow, bookedSlotsFor, generateSlots,
      slotIsBooked, demoWindow, demoDoctor, demoDoctorUser, demoApt]

/-- The exact-match conflict query, spelled out: some stored appointment for
the doctor occupies the same `(date, time)` with status `scheduled` or
`confirmed`, the excluded id (when given) set aside. -/
theorem hasExactConflict_eq_true_iff (appointments : List Appointment)
    (doctorId date time : Nat) (excludeId : Option Nat) :
    hasExactConflict appointments doctorId date time excludeId = true ↔
      ∃ a ∈ appointments, a.doctorId = doctorId ∧ a.date = date ∧
        a.time = time ∧ (a.status = .scheduled ∨ a.status = .confirmed) ∧
        ∀ i, excludeId = some i → a.id ≠ i := by
  simp only [hasExactConflict, List.any_eq_true, Bool.and_eq_true,
    Bool.or_eq_true, beq_iff_eq]
  constructor
  · rintro ⟨a, ha, ⟨⟨⟨hd, hdate⟩, htime⟩, hst⟩, hex⟩
    refine ⟨a, ha, hd, hdate, htime, hst, ?_⟩
    intro i hi
    subst hi
    simp only at hex
    simpa using hex
  · rintro ⟨a, ha, hd, hdate, htime, hst, hex⟩
    refine ⟨a, ha, ⟨⟨⟨hd, hdate⟩, htime⟩, hst⟩, ?_⟩
    cases excludeId with
    | none => rfl
    | some i => simpa using hex i rfl


/-- C1: for every create-appointment call where the doctor exists, is
available, and belongs to an active account, the call fails with
ConflictError if and only if some existing appointment for that doctor with
status in `{scheduled, confirmed}` occupies the exact same `(date, time)`;
when the doctor is missing or unavailable it fails with NotFoundError; the
same exact-match conflict check, excluding the appointment being updated,
is re-run on update whenever date or time changes (for any actor whose
permission and patient-restriction checks pass). -/
theorem create_conflict_iff_exact_slot_taken
    (actor : User) (users : List User) (doctors : List Doctor)
    (appointments : List Appointment) (req : CreateRequest) (newId : Nat)
    (hrole : actor.role = .patient) :
    (findBookableDoctor doctors users req.doctorId = none →
      createAppointment actor users doctors appointments req newId =
        .error .notFound) ∧
    (∀ d, findBookableDoctor doctors users req.doctorId = some d →
      (createAppointment actor users doctors appointments req newId =
          .error .conflict ↔
        ∃ a ∈ appointments, a.doctorId = req.doctorId ∧
          a.date = req.appointmentDate ∧ a.time = req.appointmentTime ∧
          (a.status = .scheduled ∨ a.status = .confirmed))) ∧
    (∀ (actor2 : User) (aptId : Nat) (u : UpdateRequest)
        (apt : Appointment) (doc : Doctor),
      appointments.find? (fun a => a.id == aptId) = some apt →
      doctors.find? (fun d => d.id == apt.doctorId) = some doc →
      (u.appointmentDate.isSome || u.appointmentTime.isSome) = true →
      (actor2.role == Role.admin ||
        (actor2.role == Role.patient && apt.patientId == actor2.id) ||
        (actor2.role == Role.doctor && doc.userId == actor2.id)) = true →
      (actor2.role == Role.patient && !(apt.status == AptStatus.scheduled)) = false →
      (actor2.role == Role.patient && hasDisallowedPatientField u) = false →
      (updateAppointment actor2 doctors appointments aptId u =
          .error .conflict ↔
        ∃ a ∈ appointments, a.doctorId = apt.doctorId ∧
          a.date = u.appointmentDate.getD apt.date ∧
          a.time = u.appointmentTime.getD apt.time ∧
          (a.status = .scheduled ∨ a.status = .confirmed) ∧ a.id ≠ aptId)) := by
  refine ⟨?_, ?_, ?_⟩
  · intro hnone
    simp [createAppointment, hrole, hnone]
  · intro d hd
    have key : createAppointment actor users doctors appointments req newId =
        .error .conflict ↔
        hasExactConflict appointments req.doctorId req.appointmentDate
          req.appointmentTime none = true := by
      cases hcf : hasExactConflict appointments req.doctorId
          req.appointmentDate req.appointmentTime none
      · simp [createAppointment, hrole, hd, hcf]
      · simp [createAppointment, hrole, hd, hcf]
    rw [key, hasExactConflict_eq_true_iff]
    constructor
    · rintro ⟨a, ha, h1, h2, h3, h4, _⟩
      exact ⟨a, ha, h1, h2, h3, h4⟩
    · rintro ⟨a, ha, h1, h2, h3, h4⟩
      exact ⟨a, ha, h1, h2, h3, h4, fun i hi => Option.noConfusion hi⟩
  · intro actor2 aptId u apt doc hfind hdocf hsome hcan hst hfields
    have key : updateAppointment actor2 doctors appointments aptId u =
        .error .conflict ↔
        hasExactConflict appointments apt.doctorId
          (u.appointmentDate.getD apt.date) (u.appointmentTime.getD apt.time)
          (some aptId) = true := by
      cases hcf : hasExactConflict appointments apt.doctorId
          (u.appointmentDate.getD apt.date) (u.appointmentTime.getD apt.time)
          (some aptId)
      · simp only [updateAppointment, hfind, hdocf, hcan, hst, hfields,
          hsome, hcf]
        simp only [Bool.not_true, Bool.and_false, Bool.true_and]
        by_cases hnum : numUpdateFields u = 0 <;> simp [hnum]
      · simp [updateAppointment, hfind, hdocf, hcan, hst, hfields, hsome, hcf]
    rw [key, hasExactConflict_eq_true_iff]
    constructor
    · rintro ⟨a, ha, h1, h2, h3, h4, h5⟩
      exact ⟨a, ha, h1, h2, h3, h4, h5 aptId rfl⟩
    · rintro ⟨a, ha, h1, h2, h3, h4, h5⟩
      refine ⟨a, ha, h1, h2, h3, h4, ?_⟩
      intro i hi
      cases hi
      exact h5

/-- Witness for C1 at a concrete store: booking the already-taken
`(date 100, 10:00)` slot of `demoDoctor` fails with ConflictError. -/
theorem create_conflict_iff_exact_slot_taken_witness :
    createAppointment demoPatientUser [demoDoctorUser, demoPatientUser]
      [demoDoctor] [demoApt]
      { doctorId := 1, appointmentDate := 100, appointmentTime := 600,
        type := .inPerson } 12 = .error .conflict :=
  ((create_conflict_iff_exact_slot_taken demoPatientUser
      [demoDoctorUser, demoPatientUser] [demoDoctor] [demoApt]
      { doctorId := 1, appointmentDate := 100, appointmentTime := 600,
        type := .inPerson } 12 rfl).2.1 demoDoctor (by decide)).mpr
    ⟨demoApt, by decide, by decide, by decide, by decide, Or.inl (by decide)⟩

/-- C6: an update-appointment call by an actor with role patient succeeds
only if the actor is the appointment's patient, only while the appointment's
status is `scheduled`, and only if every changed field is one of date, time,
reason; any violation fails with ForbiddenError, while the same call by an
admin succeeds (when the new slot is free and the body is non-empty). -/
theorem patient_update_ownership_and_field_restrictions
    (doctors : List Doctor) (appointments : List Appointment)
    (aptId : Nat) (u : UpdateRequest) (apt : Appointment) (doc : Doctor)
    (hfind : appointments.find? (fun a => a.id == aptId) = some apt)
    (hdoc : doctors.find? (fun d => d.id == apt.doctorId) = some doc) :
    (∀ actor : User, actor.role = .patient → apt.patientId ≠ actor.id →
      updateAppointment actor doctors appointments aptId u =
        .error .forbidden) ∧
    (∀ actor : User, actor.role = .patient → apt.patientId = actor.id →
      apt.status ≠ .scheduled →
      updateAppointment actor doctors appointments aptId u =
        .error .forbidden) ∧
    (∀ actor : User, actor.role = .patient → apt.patientId = actor.id →
      apt.status = .scheduled → hasDisallowedPatientField u = true →
      updateAppointment actor doctors appointments aptId u =
        .error .forbidden) ∧
    (∀ actor : User, actor.role = .admin →
      hasExactConflict appointments apt.doctorId
        (u.appointmentDate.getD apt.date) (u.appointmentTime.getD apt.time)
        (some aptId) = false →
      numUpdateFields u ≠ 0 →
      updateAppointment actor doctors appointments aptId u =
        .ok (appointments.map fun a =>
          if a.id == aptId then applyUpdates a u else a)) := by
  refine ⟨?_, ?_, ?_, ?_⟩
  · intro actor hrole hown
    have hown2 : (apt.patientId == actor.id) = false := by
      simp [hown]
    simp [updateAppointment, hfind, hdoc, hrole, hown2]
  · intro actor hrole hown hst
    have hst2 : (apt.status == AptStatus.scheduled) = false := by
      simp [hst]
    simp [updateAppointment, hfind, hdoc, hrole, hown, hst2]
  · intro actor hrole hown hst hfld
    simp [updateAppointment, hfind, hdoc, hrole, hown, hst, hfld]
  · intro actor hrole hcf hnum
    simp [updateAppointment, hfind, hdoc, hrole, hcf, hnum]

/-- Witness for C6: `demoOtherPatient` updating `demoApt` (owned by
`demoPatientUser`) is forbidden; the same call by `demoAdmin` succeeds. -/
theorem patient_update_ownership_witness :
    updateAppointment demoOtherPatient [demoDoctor] [demoApt] 7
      { appointmentDate := some 101 } = .error .forbidden ∧
    updateAppointment demoAdmin [demoDoctor] [demoApt] 7
      { appointmentDate := some 101 } =
      .ok [{ demoApt with date := 101 }] := by
  have h := patient_update_ownership_and_field_restrictions [demoDoctor]
    [demoApt] 7 { appointmentDate := some 101 } demoApt demoDoctor
    (by decide) (by decide)
  refine ⟨h.1 demoOtherPatient rfl (by decide), ?_⟩
  have h2 := h.2.2.2 demoAdmin rfl (by decide) (by decide)
  rw [h2]
  rfl

/-- C7 (counterexample): terminal states do accept further transitions.  On
the completed appointment `demoCompletedApt`, `DELETE` by an admin rewrites
the status to `cancelled`, and `PUT` by an admin rewrites it to
`scheduled`. -/
theorem terminal_status_transition_counterexample :
    cancelAppointment demoAdmin [demoDoctor] [demoCompletedApt] 9 =
      .ok [{ demoCompletedApt with status := .cancelled }] ∧
    updateAppointment demoAdmin [demoDoctor] [demoCompletedApt] 9
      { status := some .scheduled } =
      .ok [{ demoCompletedApt with status := .scheduled }] :=
  ⟨rfl, rfl⟩

/-- C7 (amended): neither operation protects terminal states.  `cancel`
sets the status of any appointment to `cancelled` for every authorized
actor regardless of the current status, and `update` by an admin sets any
validated status regardless of the current status; only the patient update
path refuses non-`scheduled` appointments. -/
theorem cancel_and_admin_update_ignore_terminal_status
    (doctors : List Doctor) (appointments : List Appointment)
    (aptId : Nat) (apt : Appointment) (doc : Doctor)
    (hfind : appointments.find? (fun a => a.id == aptId) = some apt)
    (hdoc : doctors.find? (fun d => d.id == apt.doctorId) = some doc) :
    (∀ actor : User,
      (actor.role == Role.admin ||
        (actor.role == Role.patient && apt.patientId == actor.id) ||
        (actor.role == Role.doctor && doc.userId == actor.id)) = true →
      cancelAppointment actor doctors appointments aptId =
        .ok (appointments.map fun a =>
          if a.id == aptId then { a with status := .cancelled } else a)) ∧
    (∀ (actor : User) (st : AptStatus), actor.role = .admin →
      updateAppointment actor doctors appointments aptId
        { status := some st } =
        .ok (appointments.map fun a =>
          if a.id == aptId then { a with status := st } else a)) := by
  constructor
  · intro actor hcan
    simp [cancelAppointment, hfind, hdoc, hcan]
  · intro actor st hrole
    simp [updateAppointment, hfind, hdoc, hrole, numUpdateFields,
      applyUpdates]

/-- Witness for C7 (amended) on the completed `demoCompletedApt`. -/
theorem cancel_ignores_terminal_status_witness :
    cancelAppointment demoPatientUser [demoDoctor] [demoCompletedApt] 9 =
      .ok [{ demoCompletedApt with status := .cancelled }] ∧
    updateAppointment demoAdmin [demoDoctor] [demoCompletedApt] 9
      { status := some .inProgress } =
      .ok [{ demoCompletedApt with status := .inProgress }] := by
  have h := cancel_and_admin_update_ignore_terminal_status [demoDoctor]
    [demoCompletedApt] 9 demoCompletedApt demoDoctor (by decide) (by decide)
  refine ⟨?_, ?_⟩
  · rw [h.1 demoPatientUser (by decide)]
    rfl
  · rw [h.2 demoAdmin .inProgress rfl]
    rfl

/-- C9: every appointment created through `POST /appointments` has its
patient set to the authenticated caller's account id (the body carries no
patient id), and only an actor with role patient reaches the handler at
all. -/

theorem create_sets_patient_to_caller
    (actor : User) (users : List User) (doctors : List Doctor)
    (appointments : List Appointment) (req : CreateRequest) (newId : Nat)
    (apt : Appointment) (rest : List Appointment)
    (h : createAppointment actor users doctors appointments req newId =
      .ok (apt, rest)) :
    apt.patientId = actor.id ∧ actor.role = .patient ∧
      rest = appointments ++ [apt] := by
  unfold createAppointment at h
  split at h
  · simp_all
  · rename_i hrole
    have hrole2 : actor.role = .patient := by
      simpa using hrole
    split at h
    · simp_all
    · split at h
      · simp_all
      · simp only [Except.ok.injEq, Prod.mk.injEq] at h
        obtain ⟨h1, h2⟩ := h
        refine ⟨?_, hrole2, ?_⟩
        · rw [← h1]
        · rw [← h2, ← h1]


/-- Witness for C9: a concrete successful booking by `demoPatientUser`. -/
theorem create_sets_patient_to_caller_witness :
    (createdApt.patientId = demoPatientUser.id ∧
      demoPatientUser.role = .patient ∧
      [createdApt] = [] ++ [createdApt]) :=
  create_sets_patient_to_caller demoPatientUser
    [demoDoctorUser, demoPatientUser] [demoDoctor] []
    { doctorId := 1, appointmentDate := 100, appointmentTime := 630,
      type := .inPerson } 12 _ _ rfl

/-- C5: for every account holding a valid, unexpired access token, once the
account is deactivated (`PUT /users/:id/status` with `isActive = false`),
the next `authenticateToken` call on that still-valid token fails with a
401 `INVALID_TOKEN`, because the middleware re-fetches the account with
`is_active = TRUE`; deactivation takes effect immediately rather than
waiting for token expiry. -/
theorem deactivation_immediately_blocks_authenticate
    (users users2 : List User) (adminId xId : Nat)
    (h : setUserStatus users adminId xId false = .ok users2) :
    authenticateToken users2 (.valid xId) = .fail401 "INVALID_TOKEN" := by
  unfold setUserStatus at h
  split at h
  · simp_all
  · split at h
    · simp_all
    · simp only [Except.ok.injEq] at h
      subst h
      simp only [authenticateToken]
      have hnone : (users.map fun u =>
          if u.id == xId then { u with isActive := false } else u).find?
          (fun u => u.id == xId && u.isActive) = none := by
        rw [List.find?_eq_none]
        intro u hu
        rw [List.mem_map] at hu
        obtain ⟨v, hv, rfl⟩ := hu
        by_cases hid : v.id = xId
        · simp [hid]
        · simp [hid]
      rw [hnone]


/-- Witness for C5: deactivating `demoPatientUser` blocks a token that is
still valid for account id 3. -/
theorem deactivation_immediately_blocks_authenticate_witness :
    authenticateToken [{ demoPatientUser with isActive := false }]
      (.valid 3) = .fail401 "INVALID_TOKEN" :=
  deactivation_immediately_blocks_authenticate [demoPatientUser] _ 5 3 rfl


/-- C2: for every refresh token `tokenA` that is redeemed by `refresh`
(matching the stored record `v`, the only record whose hash matches
`tokenA`), producing a new pair whose refresh token `tokenB` hashes to the
newly stored record: a second `refresh(tokenA)` fails with
UnauthorizedError (the matched record was marked revoked during the first
redemption), and `refresh(tokenB)` succeeds — a refresh token can be
redeemed at most once. -/
theorem refresh_rotation_single_use
    (compare : Nat → Nat → Bool) (rows : List TokenRecord)
    (uid tokenA tokenB newId newHash newId2 newHash2 newId3 newHash3 : Nat)
    (v : TokenRecord)
    (h1 : (rows.filter fun r => r.userId == uid && r.live && !r.isRevoked).find?
        (fun r => compare tokenA r.tokenHash) = some v)
    (h2 : ∀ r ∈ rows, compare tokenA r.tokenHash = true → r.id = v.id)
    (h3 : compare tokenA newHash = false)
    (h4 : compare tokenB newHash = true) :
    refreshTokens compare rows (some uid) tokenA newId newHash =
      .ok (afterRotation rows v uid newId newHash) ∧
    refreshTokens compare (afterRotation rows v uid newId newHash)
      (some uid) tokenA newId2 newHash2 = .error .unauthorized ∧
    (refreshTokens compare (afterRotation rows v uid newId newHash)
      (some uid) tokenB newId3 newHash3).isOk = true := by
  refine ⟨?_, ?_, ?_⟩
  · simp [refreshTokens, h1, afterRotation]
  · have hnone : ((afterRotation rows v uid newId newHash).filter fun r =>
        r.userId == uid && r.live && !r.isRevoked).find?
        (fun r => compare tokenA r.tokenHash) = none := by
      rw [List.find?_eq_none]
      intro r hr
      rw [List.mem_filter] at hr
      obtain ⟨hmem, hpred⟩ := hr
      rw [afterRotation, List.mem_append] at hmem
      rcases hmem with hmem | hmem
      · rw [List.mem_map] at hmem
        obtain ⟨r0, hr0, rfl⟩ := hmem
        by_cases hid : r0.id = v.id
        · simp [hid] at hpred
        · simp [hid]
          cases hc : compare tokenA r0.tokenHash
          · rfl
          · exact absurd (h2 r0 hr0 hc) hid
      · simp only [List.mem_singleton] at hmem
        subst hmem
        simp [h3]
    simp [refreshTokens, hnone]
  · have hsome : (((afterRotation rows v uid newId newHash).filter fun r =>
        r.userId == uid && r.live && !r.isRevoked).find?
        (fun r => compare tokenB r.tokenHash)).isSome = true := by
      rw [List.find?_isSome]
      refine ⟨⟨newId, uid, newHash, true, false⟩, ?_, h4⟩
      rw [List.mem_filter]
      constructor
      · rw [afterRotation, List.mem_append]
        right
        simp
      · simp
    obtain ⟨r, hr⟩ := Option.isSome_iff_exists.mp hsome
    simp [refreshTokens, hr, Except.isOk, Except.toBool]

/-- Witness for C2 on a one-record token table, with hash matching
instantiated as plaintext equality. -/
theorem refresh_rotation_single_use_witness :
    refreshTokens (fun t s => t == s) [⟨1, 10, 100, true, false⟩] (some 10)
      100 2 200 =
      .ok [⟨1, 10, 100, true, true⟩, ⟨2, 10, 200, true, false⟩] ∧
    refreshTokens (fun t s => t == s)
      [⟨1, 10, 100, true, true⟩, ⟨2, 10, 200, true, false⟩] (some 10)
      100 3 300 = .error .unauthorized ∧
    (refreshTokens (fun t s => t == s)
      [⟨1, 10, 100, true, true⟩, ⟨2, 10, 200, true, false⟩] (some 10)
      200 4 400).isOk = true := by
  have h := refresh_rotation_single_use (fun t s => t == s)
    [⟨1, 10, 100, true, false⟩] 10 100 200 2 200 3 300 4 400
    ⟨1, 10, 100, true, false⟩ (by decide) (by decide) (by decide) (by decide)
  have ha : afterRotation [⟨1, 10, 100, true, false⟩]
      ⟨1, 10, 100, true, false⟩ 10 2 200 =
      [⟨1, 10, 100, true, true⟩, ⟨2, 10, 200, true, false⟩] := by decide
  rw [ha] at h
  exact h

/-- C8 (counterexample): a window whose start (17:00) is not before its
end (09:00) raises no ValidationError — `PUT /doctors/availability` accepts
and stores it, refuting the claimed `start < end` validation. -/
theorem setAvailability_accepts_inverted_window :
    setAvailability demoDoctorUser [demoDoctor] []
      [{ dayOfWeek := some "monday", startTime := some 1020,
         endTime := some 540 }] =
      .ok [{ doctorId := 1, dayOfWeek := "monday", startTime := 1020,
             endTime := 540, isActive := true }] ∧ 1020 > 540 := by
  refine ⟨?_, by decide⟩
  rfl

/-- The insert loop succeeds exactly when every submitted window carries
all three of `dayOfWeek`, `startTime`, `endTime`; no other validation is
performed. -/
theorem insertWindows_ok_iff (doctorId : Nat) (input : List WindowInput) :
    (∃ ws, insertWindows doctorId input = .ok ws) ↔
      ∀ w ∈ input, w.dayOfWeek.isSome ∧ w.startTime.isSome ∧
        w.endTime.isSome := by
  induction input with
  | nil => simp [insertWindows]
  | cons w rest ih =>
    simp only [List.mem_cons, forall_eq_or_imp]
    rcases hd : w.dayOfWeek with _ | day
    · simp [insertWindows, hd]
    · rcases hs : w.startTime with _ | s
      · simp [insertWindows, hd, hs]
      · rcases he : w.endTime with _ | e
        · simp [insertWindows, hd, hs, he]
        · simp only [insertWindows, hd, hs, he]
          constructor
          · rintro ⟨ws, hws⟩
            refine ⟨⟨by simp [hd], by simp [hs], by simp [he]⟩, ?_⟩
            cases hrest : insertWindows doctorId rest with
            | error err =>
              rw [hrest] at hws
              simp at hws
            | ok ws2 => exact ih.mp ⟨ws2, hrest⟩
          · rintro ⟨_, hrest⟩
            obtain ⟨ws2, hws2⟩ := ih.mpr hrest
            exact ⟨_, by rw [hws2]⟩

/-- C8 (amended): `setWindows` validates only that each submitted window
has `dayOfWeek`, `startTime` and `endTime` present (a missing field aborts
the whole replacement — and since the intended `ValidationError` class is
not imported by this router, the abort surfaces as a 500 internal error);
no `start < end` check is performed, so inverted windows are accepted.  The
full set of windows for the doctor is still replaced atomically: on success
the result is exactly the other doctors' windows plus the inserted ones,
and on any failure the transaction rolls back leaving the table
unchanged. -/
theorem setAvailability_presence_validation_and_atomic_replacement
    (actor : User) (doctors : List Doctor) (windows : List AvailWindow)
    (input : List WindowInput) (doc : Doctor)
    (hrole : actor.role = .doctor)
    (hdoc : doctors.find? (fun d => d.userId == actor.id) = some doc) :
    ((∃ ws, setAvailability actor doctors windows input = .ok ws) ↔
      ∀ w ∈ input, w.dayOfWeek.isSome ∧ w.startTime.isSome ∧
        w.endTime.isSome) ∧
    (∀ newWs, insertWindows doc.id input = .ok newWs →
      setAvailability actor doctors windows input =
        .ok ((windows.filter fun w => !(w.doctorId == doc.id)) ++ newWs)) := by
  constructor
  · rw [← insertWindows_ok_iff doc.id input]
    constructor
    · rintro ⟨ws, hws⟩
      simp only [setAvailability, hrole, hdoc] at hws
      simp only [beq_self_eq_true, Bool.not_true, if_false] at hws
      cases hins : insertWindows doc.id input with
      | error err => simp [hins] at hws
      | ok ws2 => exact ⟨ws2, rfl⟩
    · rintro ⟨ws, hws⟩
      refine ⟨(windows.filter fun w => !(w.doctorId == doc.id)) ++ ws, ?_⟩
      simp [setAvailability, hrole, hdoc, hws]
  · intro newWs hins
    simp [setAvailability, hrole, hdoc, hins]

/-- Witness for C8 (amended): a full replacement that keeps another
doctor's window, lower-cases the day name, and accepts an inverted
(start > end) window. -/
theorem setAvailability_replacement_witness :
    setAvailability demoDoctorUser [demoDoctor]
      [demoWindow, ⟨2, "tuesday", 540, 600, true⟩]
      [⟨some "Monday", some 1020, some 540, true⟩] =
      .ok [⟨2, "tuesday", 540, 600, true⟩,
        ⟨1, "monday", 1020, 540, true⟩] := by
  have h := (setAvailability_presence_validation_and_atomic_replacement
    demoDoctorUser [demoDoctor] [demoWindow, ⟨2, "tuesday", 540, 600, true⟩]
    [⟨some "Monday", some 1020, some 540, true⟩] demoDoctor rfl rfl).2
    [⟨1, "monday", 1020, 540, true⟩] rfl
  rw [h]
  rfl

/-- C10: registration only ever creates accounts with role patient or
doctor: a register request whose role is neither (for example `admin`) is
rejected with a validation error before any insert, and every successful
registration appends exactly one account whose role is patient or
doctor. -/
theorem register_role_restricted_to_patient_or_doctor
    (users : List User) (doctors : List Doctor) (req : RegisterRequest)
    (newUserId newDoctorId : Nat) :
    (¬(req.role = "patient" ∨ req.role = "doctor") →
      registerUser users doctors req newUserId newDoctorId =
        .error .validation) ∧
    (∀ users2 doctors2,
      registerUser users doctors req newUserId newDoctorId =
        .ok (users2, doctors2) →
      ∃ u : User, users2 = users ++ [u] ∧ u.id = newUserId ∧
        (u.role = .patient ∨ u.role = .doctor)) := by
  constructor
  · intro hrole
    push_neg at hrole
    obtain ⟨h1, h2⟩ := hrole
    have hv : registerValidationOk req = false := by
      simp [registerValidationOk, h1, h2]
    simp [registerUser, hv]
  · intro users2 doctors2 h
    unfold registerUser at h
    split at h
    · simp_all
    · split at h
      · simp_all
      · split at h
        · rename_i hdoc
          split at h
          · split at h
            · simp_all
            · simp only [Except.ok.injEq, Prod.mk.injEq] at h
              obtain ⟨h1, h2⟩ := h
              refine ⟨_, h1.symm, rfl, ?_⟩
              simp [hdoc]
          · simp_all
        · rename_i hdoc
          simp only [Except.ok.injEq, Prod.mk.injEq] at h
          obtain ⟨h1, h2⟩ := h
          refine ⟨_, h1.symm, rfl, ?_⟩
          simp [hdoc]

/-- Witness for C10: registering with role `admin` fails with a
validation error. -/
theorem register_role_restricted_witness :
    registerUser [] []
      { email := "a@clinic.test", password := "Password1",
        firstName := "Ada", lastName := "Admin", role := "admin" } 1 1 =
      .error .validation :=
  (register_role_restricted_to_patient_or_doctor [] []
    { email := "a@clinic.test", password := "Password1",
      firstName := "Ada", lastName := "Admin", role := "admin" } 1 1).1
    (by decide)
